import Mathlib

/-!
Verification of the CaseMaker case-geometry pipeline (src/casemaker.py and
src/scad.py).

Coordinates are modelled as rationals (`ℚ`).  The `Rectangle` helper class and
the OpenSCAD solid backend (`solid` / `sc`) are external to the repository, so
they are modelled from the spec (sections 4.1 and 6); everything else is a
direct translation of the Python source.  CSG solids are given an executable
point-membership semantics (`Solid.contains`).
-/

namespace CaseMaker

/-- Modelled from the spec: numpy integer-array element assignment.
`make_cutout_rect` builds its move vector with `np.array([0,0])`, an integer
array, so the assignment `move[axis] = -thickness*2` casts the float to an
integer by truncation toward zero.  `npTrunc` is that cast. -/
def npTrunc (q : ℚ) : ℤ :=
  if 0 ≤ q then ⌊q⌋ else -⌊-q⌋

/-- The truncated value cast back to the coordinate field. -/
def npIntCast (q : ℚ) : ℚ := (npTrunc q : ℚ)

/-- Modelled from the spec: the 2D axis-aligned `Rectangle` type
(`Rectangle.py` is not part of the repository sources).  Spec section 3:
"two corner coordinates (low, high) per axis". -/
structure Rectangle where
  lowx : ℚ
  lowy : ℚ
  highx : ℚ
  highy : ℚ
deriving DecidableEq

/-- Modelled from the spec: scalar accessor `left()`. -/
def Rectangle.left (r : Rectangle) : ℚ := r.lowx

/-- Modelled from the spec: scalar accessor `right()`. -/
def Rectangle.right (r : Rectangle) : ℚ := r.highx

/-- Modelled from the spec: scalar accessor `bot()`. -/
def Rectangle.bot (r : Rectangle) : ℚ := r.lowy

/-- Modelled from the spec: scalar accessor `top()`. -/
def Rectangle.top (r : Rectangle) : ℚ := r.highy

/-- Modelled from the spec: derived width. -/
def Rectangle.width (r : Rectangle) : ℚ := r.highx - r.lowx

/-- Modelled from the spec: derived height. -/
def Rectangle.height (r : Rectangle) : ℚ := r.highy - r.lowy

/-- Modelled from the spec: per-axis low bound, `rect.low(axis)`. -/
def Rectangle.low (r : Rectangle) : ℕ → ℚ
  | 0 => r.lowx
  | _ => r.lowy

/-- Modelled from the spec: per-axis high bound, `rect.high(axis)`. -/
def Rectangle.high (r : Rectangle) : ℕ → ℚ
  | 0 => r.highx
  | _ => r.highy

/-- Modelled from the spec (section 4.1): `pad(amount)` expands (or, for a
negative amount, shrinks) the rectangle symmetrically on all four sides. -/
def Rectangle.pad (r : Rectangle) (amount : ℚ) : Rectangle :=
  ⟨r.lowx - amount, r.lowy - amount, r.highx + amount, r.highy + amount⟩

/-- Modelled from the spec (section 4.1): `move(delta)` translates both
corners by a per-axis delta. -/
def Rectangle.move (r : Rectangle) (dx dy : ℚ) : Rectangle :=
  ⟨r.lowx + dx, r.lowy + dy, r.highx + dx, r.highy + dy⟩

/-- Modelled from the spec (section 4.1): `union(a, b)` is the minimal
rectangle enclosing both (a bounding-box merge). -/
def Rectangle.union (a b : Rectangle) : Rectangle :=
  ⟨min a.lowx b.lowx, min a.lowy b.lowy, max a.highx b.highx, max a.highy b.highy⟩

/-- Modelled from the spec (section 4.1): `encloses(other)` is true iff the
other rectangle's bounds are fully within this rectangle's bounds on both
axes. -/
def Rectangle.encloses (a b : Rectangle) : Bool :=
  decide (a.lowx ≤ b.lowx ∧ a.lowy ≤ b.lowy ∧ b.highx ≤ a.highx ∧ b.highy ≤ a.highy)

/-- Modelled from the spec (section 4.1): `area()` is width times height. -/
def Rectangle.area (r : Rectangle) : ℚ := r.width * r.height

/-- Modelled from the spec (section 6): the CSG expression trees produced by
the external solid-geometry backend, restricted to the primitives and
transforms the source actually uses.  `rotY90` is `sc.rotate([0,90,0])`, the
only rotation in the source. -/
inductive Solid where
  | cube (sx sy sz : ℚ)
  | cylinder (h r : ℚ) (segments : ℕ)
  | translate (vx vy vz : ℚ) (s : Solid)
  | scale (kx ky kz : ℚ) (s : Solid)
  | rotY90 (s : Solid)
  | union (a b : Solid)
  | diff (a b : Solid)
  | inter (a b : Solid)
deriving DecidableEq

/-- Modelled from the spec (section 6): point-membership semantics of the
solid backend.  `cube` sits on the origin with the given extents, `cylinder`
rises from z = 0 (the polygonal `segments` approximation is idealised to a
true cylinder), the transforms act on points in the usual way
(`rotY90` maps (x,y,z) to (z,y,-x), so its inverse is (x,y,z) to (-z,y,x)),
and the boolean operations are set operations. -/
def Solid.contains : Solid → ℚ × ℚ × ℚ → Bool
  | .cube sx sy sz, (x, y, z) =>
      decide (0 ≤ x ∧ x ≤ sx ∧ 0 ≤ y ∧ y ≤ sy ∧ 0 ≤ z ∧ z ≤ sz)
  | .cylinder h r _, (x, y, z) =>
      decide (0 ≤ z ∧ z ≤ h ∧ x ^ 2 + y ^ 2 ≤ r ^ 2)
  | .translate vx vy vz s, (x, y, z) => s.contains (x - vx, y - vy, z - vz)
  | .scale kx ky kz s, (x, y, z) => s.contains (x / kx, y / ky, z / kz)
  | .rotY90 s, (x, y, z) => s.contains (-z, y, x)
  | .union a b, p => a.contains p || b.contains p
  | .diff a b, p => a.contains p && !(b.contains p)
  | .inter a b, p => a.contains p && b.contains p

/-- Number of constructors in a CSG tree (a purely structural measure). -/
def Solid.size : Solid → ℕ
  | .cube _ _ _ => 1
  | .cylinder _ _ _ => 1
  | .translate _ _ _ s => s.size + 1
  | .scale _ _ _ s => s.size + 1
  | .rotY90 s => s.size + 1
  | .union a b => a.size + b.size + 1
  | .diff a b => a.size + b.size + 1
  | .inter a b => a.size + b.size + 1

/-- scad.py, `rect2scad(rect, height, z_start = 0.0, mirrored = False)`:
convert a Rectangle into an OpenSCAD cube by giving it a height and z start;
when mirrored, wrap the result in `scale([1,1,-1])`. -/
def rect2scad (rect : Rectangle) (height z_start : ℚ) (mirrored : Bool) : Solid :=
  let scad_cube := Solid.translate rect.left rect.bot z_start
    (Solid.cube rect.width rect.height height)
  if mirrored then Solid.scale 1 1 (-1) scad_cube else scad_cube

/-- scad.py, `ScadCase.__init__` state: the dimensional parameters stored on
the instance together with the accumulated CSG solid `self._case`.
`board_bbox` is the stored `self._board_bbox`, i.e. the constructor argument
already shrunk by `board_slot`. -/
structure ScadCase where
  space_top : ℚ
  space_bot : ℚ
  thickness_xy : ℚ
  thickness_z : ℚ
  board_slot : ℚ
  board_thickness : ℚ
  board_bbox : Rectangle
  min_screw_material : ℚ
  round_segments : ℕ
  case : Solid
deriving DecidableEq

/-- scad.py, `cavity_height` property: the height of the empty space inside
the case. -/
def ScadCase.cavity_height (c : ScadCase) : ℚ :=
  c.space_top + c.space_bot + c.board_thickness

/-- scad.py, `cavity_top` property: distance from z = 0 to the top of the
inner cavity. -/
def ScadCase.cavity_top (c : ScadCase) : ℚ :=
  c.board_thickness + c.space_top

/-- scad.py, `cavity_bot` property: distance from z = 0 to the bottom of the
cavity. -/
def ScadCase.cavity_bot (c : ScadCase) : ℚ :=
  c.space_bot

/-- scad.py, `height` property. -/
def ScadCase.height (c : ScadCase) : ℚ :=
  c.cavity_height + c.thickness_z * 2

/-- scad.py, `ScadCase.__init__`, the successful path (both assertions hold):
shrink the board bounding box by the 3.5mm board slot, build the inner cavity
and the outer block, subtract the cavity and then the slot channel.
The Python locals `inner`, `padded`, `outer` and `slot` appear as lets. -/
def ScadCase.make (board_bbox : Rectangle) (space_top space_bot board_thickness
    thickness_z thickness_sides : ℚ) : ScadCase :=
  let board_slot : ℚ := 3.5
  let bb := board_bbox.pad (-board_slot)
  let cavity_height := space_top + space_bot + board_thickness
  let cavity_top := board_thickness + space_top
  let inner := rect2scad bb cavity_height (-space_bot) false
  let padded := bb.pad thickness_sides
  let total_height := cavity_height + thickness_z * 2
  let outer := rect2scad padded total_height (-(space_bot + thickness_z)) false
  let slot := bb.pad board_slot
  { space_top := space_top
    space_bot := space_bot
    thickness_xy := thickness_sides
    thickness_z := thickness_z
    board_slot := board_slot
    board_thickness := board_thickness
    board_bbox := bb
    min_screw_material := 1.0
    round_segments := 40
    case := Solid.diff (Solid.diff outer inner)
      (rect2scad slot (cavity_top + 0.05) 0 false) }

/-- scad.py, `ScadCase.__init__` with its two assertions:
`assert self._board_slot < self._thickness_xy` and
`assert slot.area() < padded.area()`.  A failed assertion aborts the
construction (`none`). -/
def mkScadCase (board_bbox : Rectangle) (space_top space_bot board_thickness
    thickness_z thickness_sides : ℚ) : Option ScadCase :=
  if (3.5 : ℚ) < thickness_sides then
    if ((board_bbox.pad (-(3.5 : ℚ))).pad (3.5 : ℚ)).area <
        ((board_bbox.pad (-(3.5 : ℚ))).pad thickness_sides).area then
      some (ScadCase.make board_bbox space_top space_bot board_thickness
        thickness_z thickness_sides)
    else none
  else none

/-- scad.py, `ScadCase.cut_top(rect)`: cut a hole in the top of the case by
subtracting `rect2scad(rect, cavity_height + thickness_z*2)`. -/
def ScadCase.cut_top (c : ScadCase) (rect : Rectangle) : ScadCase :=
  { c with case := (Solid.diff c.case
      (rect2scad rect (c.cavity_height + c.thickness_z * 2) 0 false)) }

/-- scad.py, `ScadCase.cut_bot(rect)`: cut a hole in the bottom of the case
by subtracting the same prism, mirrored about z = 0. -/
def ScadCase.cut_bot (c : ScadCase) (rect : Rectangle) : ScadCase :=
  { c with case := (Solid.diff c.case
      (rect2scad rect (c.cavity_height + c.thickness_z * 2) 0 true)) }

/-- casemaker.py, `make_cutout_rect(container, rect, thickness)`: if the
container encloses the rect, return no cut; otherwise start from the original
rect and, for each axis (the `for axis in xrange(2)` loop is unrolled) and
each exceeded side, replace the accumulator with its bounding-box union
against a copy of the original rect moved by the integer-truncated
`±thickness*2` (the move vector is an integer numpy array, see `npTrunc`).
scad.py's `ScadCase._make_cutout_rect` is the same code with
`self._board_bbox` as the container and `self._thickness_xy` as the
thickness. -/
def make_cutout_rect (container rect : Rectangle) (thickness : ℚ) :
    Option Rectangle :=
  if container.encloses rect then none
  else
    -- axis = 0
    let cut := rect
    let cut := if rect.low 0 < container.low 0 then
        Rectangle.union cut (rect.move (npIntCast (-(thickness * 2))) 0)
      else cut
    let cut := if rect.high 0 > container.high 0 then
        Rectangle.union cut (rect.move (npIntCast (thickness * 2)) 0)
      else cut
    -- axis = 1
    let cut := if rect.low 1 < container.low 1 then
        Rectangle.union cut (rect.move 0 (npIntCast (-(thickness * 2))))
      else cut
    let cut := if rect.high 1 > container.high 1 then
        Rectangle.union cut (rect.move 0 (npIntCast (thickness * 2)))
      else cut
    some cut

/-- scad.py, `ScadCase._make_cutout_rect(rect)`. -/
def ScadCase.makeCutoutRect (c : ScadCase) (rect : Rectangle) :
    Option Rectangle :=
  make_cutout_rect c.board_bbox rect c.thickness_xy

/-- scad.py, `ScadCase.cut_side_top(rect)`: cut a hole in the side of the
case above the board.  The body is
`cut = self._make_cutout_rect(rect)` followed unconditionally by
`self._case -= rect2scad(cut, self.cavity_top - self._board_thickness,
self._board_thickness)`.  When `_make_cutout_rect` returns `None` (enclosed
rect), `rect2scad` dereferences `None` (`rect.left()`), raising
`AttributeError`; the crash is modelled as `none`. -/
def ScadCase.cut_side_top (c : ScadCase) (rect : Rectangle) : Option ScadCase :=
  match c.makeCutoutRect rect with
  | none => none
  | some cut => some { c with case := (Solid.diff c.case
      (rect2scad cut (c.cavity_top - c.board_thickness) c.board_thickness false)) }

/-- scad.py, `save` local `screw_head_radius = 3.0`. -/
def screwHeadRadius : ℚ := 3.0

/-- scad.py, `save` local `screw_head_length = 2.5`. -/
def screwHeadLength : ℚ := 2.5

/-- scad.py, `save` local `screw_shaft_radius = 1.40` (2.8mm diameter). -/
def screwShaftRadius : ℚ := 1.40

/-- scad.py, `save` local `screw_shaft_length = 15.0`. -/
def screwShaftLength : ℚ := 15.0

/-- scad.py, `save` local `screw_recess_side = 1.0`. -/
def screwRecessSide : ℚ := 1.0

/-- scad.py, `save` local `screw_recess_top = 0`. -/
def screwRecessTop : ℚ := 0

/-- scad.py, `save` local `min_screw_depth = 3.0`. -/
def minScrewDepth : ℚ := 3.0

/-- scad.py, `save` local `screw_down`: head (a wider cylinder starting at
the top of the shaft) unioned with the shaft cylinder, translated so the
origin is the top of the screw. -/
def ScadCase.screwDown (c : ScadCase) : Solid :=
  let head := Solid.translate 0 0 screwShaftLength
    (Solid.cylinder (screwHeadLength + 100) screwHeadRadius c.round_segments)
  let shaft := Solid.cylinder (screwShaftLength + 0.1) screwShaftRadius c.round_segments
  Solid.translate 0 0 (-screwShaftLength - screwHeadLength) (Solid.union head shaft)

/-- scad.py, `save` local `screw_side = sc.rotate([0,90,0])(screw_down)`. -/
def ScadCase.screwSide (c : ScadCase) : Solid :=
  Solid.rotY90 c.screwDown

/-- scad.py, `save` lines 138-151: the four screws subtracted from the right
side of the case, at `x = board_bbox.right() + thickness_xy + 1.0`, the two
y positions `ymin`/`ymax` and the two z levels `zmin`/`zmax`, in the
iteration order of `for y in [ymin, ymax]: for z in [zmin, zmax]`. -/
def ScadCase.afterSideScrews (c : ScadCase) : Solid :=
  let side_thick := c.thickness_xy - c.board_slot
  let ymin := c.board_bbox.bot - c.board_slot - side_thick / 2
  let ymax := c.board_bbox.top + c.board_slot + side_thick / 2
  let zmin := -c.cavity_bot - c.thickness_z + screwHeadRadius + c.min_screw_material
  let zmax := c.cavity_top - c.thickness_z - screwHeadRadius
  let x := c.board_bbox.right + c.thickness_xy + 1.0
  Solid.diff (Solid.diff (Solid.diff (Solid.diff c.case
    (Solid.translate x ymin zmin c.screwSide))
    (Solid.translate x ymin zmax c.screwSide))
    (Solid.translate x ymax zmin c.screwSide))
    (Solid.translate x ymax zmax c.screwSide)

/-- scad.py, `save` lines 155-170: the four screws subtracted from the top,
at `z = max(zmin, z_want)`, the two y positions centred in the side walls and
the two x positions near the left and right board edges, in the iteration
order of `for y in ys: for x in xs`. -/
def ScadCase.afterTopScrews (c : ScadCase) : Solid :=
  let zmin := c.cavity_top + screwHeadLength + minScrewDepth
  let z_want := c.cavity_top + c.thickness_z - screwRecessTop
  let z := max zmin z_want
  let y0 := c.board_bbox.top + c.board_slot + (c.thickness_xy - c.board_slot) / 2
  let y1 := c.board_bbox.bot - c.board_slot - (c.thickness_xy - c.board_slot) / 2
  let x0 := c.board_bbox.left + screwHeadRadius
  let x1 := c.board_bbox.right - screwShaftLength - 1.0
  Solid.diff (Solid.diff (Solid.diff (Solid.diff c.afterSideScrews
    (Solid.translate x0 y0 z c.screwDown))
    (Solid.translate x1 y0 z c.screwDown))
    (Solid.translate x0 y1 z c.screwDown))
    (Solid.translate x1 y1 z c.screwDown)

/-- scad.py, `save` lines 172-174: the top-area selector solid, the board
footprint padded by `thickness_xy*2`, extruded over the top wall's height
band. -/
def ScadCase.topAreaSelect (c : ScadCase) : Solid :=
  rect2scad (c.board_bbox.pad (c.thickness_xy * 2)) (c.thickness_z + 0.1)
    (c.cavity_top - 0.05) false

/-- scad.py, `save` lines 176-182: the main-area selector solid.  The bounds
array of the copied board bbox is edited in place: `bounds[0][0]` (low x) and
`bounds[0][1]` (low y) move out by `thickness_xy*2`, `bounds[1][0]` (high x)
moves in by 0.05 to avoid a degenerate face, `bounds[1][1]` (high y) moves
out by `thickness_xy*2`; then it is extruded over twice the case height,
starting at `-height - 10`. -/
def ScadCase.mainArea (c : ScadCase) : Solid :=
  rect2scad
    ⟨c.board_bbox.lowx - c.thickness_xy * 2, c.board_bbox.lowy - c.thickness_xy * 2,
      c.board_bbox.highx - 0.05, c.board_bbox.highy + c.thickness_xy * 2⟩
    (c.height * 2) (-c.height - 10) false

/-- scad.py, `save` lines 184-186: the `remove_top` solid clipped away from
each board-retention screw, the board footprint padded by `thickness_xy*2`
extruded from just above the cavity top. -/
def ScadCase.removeTop (c : ScadCase) : Solid :=
  rect2scad (c.board_bbox.pad (c.thickness_xy * 2)) c.height
    (c.cavity_top + 0.05) false

/-- scad.py, `save` line 187: the x position of both board-retention screws,
`board_bbox.left() + (board_bbox.width + board_slot*2)/2.0`. -/
def ScadCase.boardScrewX (c : ScadCase) : ℚ :=
  c.board_bbox.left + (c.board_bbox.width + c.board_slot * 2) / 2

/-- scad.py, `save` lines 188-189: the y positions of the two board-retention
screws. -/
def ScadCase.boardScrewYs (c : ScadCase) : List ℚ :=
  [c.board_bbox.bot - screwShaftRadius - 0.5,
   c.board_bbox.top + screwShaftRadius + 0.5]

/-- scad.py, `save` line 192: one board-retention screw subtraction term,
`sc.translate([x,y,z])(screw_down) - remove_top` with `z = screw_head_length`. -/
def ScadCase.boardScrewSolid (c : ScadCase) (y : ℚ) : Solid :=
  Solid.diff (Solid.translate c.boardScrewX y screwHeadLength c.screwDown)
    c.removeTop

/-- scad.py, `save` lines 184-193: the accumulator after the two
board-retention screw subtractions (and so after all ten screw subtractions
performed inside `save`). -/
def ScadCase.afterScrews (c : ScadCase) : Solid :=
  Solid.diff (Solid.diff c.afterTopScrews
    (c.boardScrewSolid (c.board_bbox.bot - screwShaftRadius - 0.5)))
    (c.boardScrewSolid (c.board_bbox.top + screwShaftRadius + 0.5))

/-- The solids `save` writes out: `screw.scad`, `top.<file>`, `main.<file>`,
`side.<file>`, `exploded.<file>` and the full case at `<file>` (the value of
`self._case` at the end of `save`). -/
structure SaveResult where
  screw : Solid
  top : Solid
  main : Solid
  side : Solid
  exploded : Solid
  full : Solid
deriving DecidableEq

/-- scad.py, `save` lines 196-215 applied after the screw subtractions: the
part separation `main_part = case * main_area`,
`side = case - (main_area + top_area_select)`, `top = case * top_area_select`,
`main_part -= top_area_select`, the exploded view (side moved by [40,0,0],
top by [0,0,40]) and the final accumulator. -/
def ScadCase.saveParts (c : ScadCase) : SaveResult :=
  { screw := c.screwSide
    top := Solid.inter c.afterScrews c.topAreaSelect
    main := Solid.diff (Solid.inter c.afterScrews c.mainArea) c.topAreaSelect
    side := Solid.diff c.afterScrews (Solid.union c.mainArea c.topAreaSelect)
    exploded := (Solid.union (Solid.union
      (Solid.diff (Solid.inter c.afterScrews c.mainArea) c.topAreaSelect)
      (Solid.translate 40 0 0
        (Solid.diff c.afterScrews (Solid.union c.mainArea c.topAreaSelect))))
      (Solid.translate 0 0 40 (Solid.inter c.afterScrews c.topAreaSelect)))
    full := c.afterScrews }

/-- scad.py, `ScadCase.save(file)`, including its two assertions
`assert screw_recess_side < self._thickness_xy` and
`assert screw_recess_top < self._thickness_z`; a failed assertion aborts
(`none`), otherwise the ten screw subtractions are applied to `self._case`
and the output solids are produced. -/
def ScadCase.save (c : ScadCase) : Option SaveResult :=
  if screwRecessSide < c.thickness_xy then
    if screwRecessTop < c.thickness_z then
      some c.saveParts
    else none
  else none

/-- Modelled from the spec (section 6): one `<option>` element of the
optional height-specification (gspec) document, a named numeric option. -/
structure GspecOption where
  name : String
  value : ℚ
deriving DecidableEq

/-- The module attributes `scad.space_top` and `scad.space_bot` that
casemaker.py lines 66-69 assign to.  The `scad` module defines no such names,
so the assignments create fresh module attributes that nothing ever reads. -/
structure ModuleScadVars where
  space_top : Option ℚ
  space_bot : Option ℚ
deriving DecidableEq

/-- casemaker.py lines 64-69: walk the gspec options; an option named
`front-standoff-height` is stored into `scad.space_top`, one named
`back-standoff-height` into `scad.space_bot`.  (In the Python source the
stored value is read as `option.attr["value"]`, an attribute lxml elements do
not even have; the model generously lets the read succeed.) -/
def runGspec (options : List GspecOption) : ModuleScadVars :=
  options.foldl (fun m o =>
    if o.name = "front-standoff-height" then { m with space_top := some o.value }
    else if o.name = "back-standoff-height" then { m with space_bot := some o.value }
    else m) ⟨none, none⟩

/-- casemaker.py lines 60-71: `top = 15.0`, `bottom = 15.0`, the gspec
handling (which only writes the module attributes), then
`case = scad.ScadCase(board_box, top, bottom)` with the constructor defaults
`board_thickness=1.6`, `thickness_z=4.0`, `thickness_sides=7.1`.  The result
pairs the module attributes left behind by the gspec handling with the
constructed case. -/
def pipelineCase (board_box : Rectangle) (gspec : Option (List GspecOption)) :
    ModuleScadVars × Option ScadCase :=
  let moduleVars := match gspec with
    | none => (⟨none, none⟩ : ModuleScadVars)
    | some options => runGspec options
  (moduleVars, mkScadCase board_box 15.0 15.0 1.6 4.0 7.1)

/-- Modelled from the spec (section 6): the board-geometry source's output,
a bounding box plus the layer-tagged rectangle lists (mirroring already
resolved): the `tFaceplate` and `bFaceplate` bounding boxes and the `sideCut`
plain-element bounding boxes of casemaker.py lines 89-113. -/
structure BoardInput where
  bbox : Rectangle
  tfaceplate : List Rectangle
  bfaceplate : List Rectangle
  sideCuts : List Rectangle
deriving DecidableEq

/-- casemaker.py top level: construct the case (lines 48-71), `cut_top` every
`tFaceplate` rectangle and `cut_bot` every `bFaceplate` rectangle (lines
105-108), compute the `sideCut` bounding boxes without using them (lines
111-113; no cut operation ever receives them and `cut_side_top` is never
invoked), then `case.save(args.file)` (line 116).  `openTop` is the parsed
open-top command-line flag (line 52), which no later line reads. -/
def runCasemaker (board : BoardInput) (gspec : Option (List GspecOption))
    (openTop : Bool) : Option SaveResult :=
  match (pipelineCase board.bbox gspec).2 with
  | none => none
  | some case0 =>
    let case1 := board.tfaceplate.foldl ScadCase.cut_top case0
    let case2 := board.bfaceplate.foldl ScadCase.cut_bot case1
    let side_cuts := board.sideCuts
    case2.save

/-- A concrete 50mm x 30mm board bounding box (spec section 8, end-to-end
scenario 1). -/
def demoBoardBox : Rectangle := ⟨0, 0, 50, 30⟩

/-- The case built from `demoBoardBox` with the default parameters. -/
def demoCase : ScadCase := ScadCase.make demoBoardBox 15.0 15.0 1.6 4.0 7.1

/-- Exactly one of three propositions holds. -/
def exactlyOne (a b c : Prop) : Prop :=
  (a ∧ ¬b ∧ ¬c) ∨ (b ∧ ¬a ∧ ¬c) ∨ (c ∧ ¬a ∧ ¬b)

/-- The axis-aligned prism over a rectangle's footprint, from z = 0 up to
height `H`. -/
def inPrism (rect : Rectangle) (H x y z : ℚ) : Prop :=
  rect.left ≤ x ∧ x ≤ rect.left + rect.width ∧
  rect.bot ≤ y ∧ y ≤ rect.bot + rect.height ∧
  0 ≤ z ∧ z ≤ H

/-! ### Helper lemmas -/

theorem npIntCast_nonpos {q : ℚ} (h : q ≤ 0) : npIntCast q ≤ 0 := by
  unfold npIntCast npTrunc
  split_ifs with h0
  · have hq : q = 0 := le_antisymm h h0
    subst hq
    simp
  · have hf : (0 : ℤ) ≤ ⌊-q⌋ := Int.floor_nonneg.mpr (by linarith)
    have : (-⌊-q⌋ : ℤ) ≤ 0 := by omega
    exact_mod_cast this

theorem npIntCast_nonneg {q : ℚ} (h : 0 ≤ q) : 0 ≤ npIntCast q := by
  unfold npIntCast npTrunc
  rw [if_pos h]
  exact_mod_cast Int.floor_nonneg.mpr h

theorem demoCase_construction :
    mkScadCase demoBoardBox 15.0 15.0 1.6 4.0 7.1 = some demoCase := by
  rw [mkScadCase, if_pos (by norm_num),
    if_pos (by norm_num [Rectangle.pad, Rectangle.area, Rectangle.width,
      Rectangle.height, demoBoardBox])]
  rfl

theorem contains_union (a b : Solid) (p : ℚ × ℚ × ℚ) :
    (Solid.union a b).contains p = (a.contains p || b.contains p) := by
  obtain ⟨x, y, z⟩ := p
  rfl

theorem contains_diff (a b : Solid) (p : ℚ × ℚ × ℚ) :
    (Solid.diff a b).contains p = (a.contains p && !(b.contains p)) := by
  obtain ⟨x, y, z⟩ := p
  rfl

theorem contains_inter (a b : Solid) (p : ℚ × ℚ × ℚ) :
    (Solid.inter a b).contains p = (a.contains p && b.contains p) := by
  obtain ⟨x, y, z⟩ := p
  rfl

theorem contains_rect2scad (rect : Rectangle) (H z0 x y z : ℚ) :
    (rect2scad rect H z0 false).contains (x, y, z) = true ↔
      (rect.left ≤ x ∧ x ≤ rect.left + rect.width ∧
       rect.bot ≤ y ∧ y ≤ rect.bot + rect.height ∧
       z0 ≤ z ∧ z ≤ z0 + H) := by
  simp only [rect2scad, Bool.false_eq_true, if_false, Solid.contains,
    decide_eq_true_eq]
  constructor
  · rintro ⟨h1, h2, h3, h4, h5, h6⟩
    refine ⟨by linarith, by linarith, by linarith, by linarith, by linarith,
      by linarith⟩
  · rintro ⟨h1, h2, h3, h4, h5, h6⟩
    refine ⟨by linarith, by linarith, by linarith, by linarith, by linarith,
      by linarith⟩

theorem contains_rect2scad_mirrored (rect : Rectangle) (H z0 x y z : ℚ) :
    (rect2scad rect H z0 true).contains (x, y, z) = true ↔
      (rect2scad rect H z0 false).contains (x, y, -z) = true := by
  simp only [rect2scad, if_true, Bool.false_eq_true, if_false, Solid.contains,
    div_one]
  rw [show z / (-1 : ℚ) = -z by rw [div_neg, div_one]]

set_option maxHeartbeats 2000000 in
theorem make_cutout_rect_closed_form (container rect : Rectangle) (t : ℚ)
    (ht : 0 < t) (he : container.encloses rect = false) :
    make_cutout_rect container rect t = some
      ⟨(if rect.lowx < container.lowx then rect.lowx + npIntCast (-(t * 2))
          else rect.lowx),
       (if rect.lowy < container.lowy then rect.lowy + npIntCast (-(t * 2))
          else rect.lowy),
       (if container.highx < rect.highx then rect.highx + npIntCast (t * 2)
          else rect.highx),
       (if container.highy < rect.highy then rect.highy + npIntCast (t * 2)
          else rect.highy)⟩ := by
  have hdl : npIntCast (-(t * 2)) ≤ 0 := npIntCast_nonpos (by linarith)
  have hdh : 0 ≤ npIntCast (t * 2) := npIntCast_nonneg (by linarith)
  by_cases h1 : rect.lowx < container.lowx <;>
    by_cases h2 : container.highx < rect.highx <;>
      by_cases h3 : rect.lowy < container.lowy <;>
        by_cases h4 : container.highy < rect.highy <;>
          simp only [make_cutout_rect, he, Bool.false_eq_true, if_false,
            if_true, Rectangle.low, Rectangle.high, gt_iff_lt, h1, h2, h3, h4,
            Rectangle.union, Rectangle.move, Option.some.injEq,
            Rectangle.mk.injEq, not_false_eq_true, not_true_eq_false] <;>
          refine ⟨?_, ?_, ?_, ?_⟩ <;>
            simp only [min_def, max_def] <;> split_ifs <;> linarith

/-! ### Claim theorems -/

/-- C1 (amended): the Cutout Resolver returns no cut exactly when the
container encloses the cutout (and scad.py's method is the same algorithm on
the stored cavity footprint and wall thickness); otherwise the returned
rectangle encloses the original cutout and extends strictly more than the
integer truncation of `2*thickness_xy` past the container boundary on every
axis where the cutout exceeded it — the translation distance is
`npIntCast (±thickness*2)`, the float truncated toward zero by the integer
numpy move array, not the full `±2*thickness_xy`. -/
theorem cutout_resolver_spec (container rect : Rectangle) (t : ℚ)
    (ht : 0 < t) :
    (make_cutout_rect container rect t = none ↔
      container.encloses rect = true) ∧
    (∀ c : ScadCase, c.makeCutoutRect rect =
      make_cutout_rect c.board_bbox rect c.thickness_xy) ∧
    (∀ cut, make_cutout_rect container rect t = some cut →
      cut.encloses rect = true ∧
      (rect.lowx < container.lowx →
        cut.lowx < container.lowx + npIntCast (-(t * 2))) ∧
      (container.highx < rect.highx →
        container.highx + npIntCast (t * 2) < cut.highx) ∧
      (rect.lowy < container.lowy →
        cut.lowy < container.lowy + npIntCast (-(t * 2))) ∧
      (container.highy < rect.highy →
        container.highy + npIntCast (t * 2) < cut.highy)) := by
  have hdl : npIntCast (-(t * 2)) ≤ 0 := npIntCast_nonpos (by linarith)
  have hdh : 0 ≤ npIntCast (t * 2) := npIntCast_nonneg (by linarith)
  refine ⟨⟨?_, ?_⟩, fun c => rfl, ?_⟩
  · intro h
    cases hb : container.encloses rect
    · rw [make_cutout_rect_closed_form container rect t ht hb] at h
      exact absurd h (by simp)
    · rfl
  · intro h
    simp [make_cutout_rect, h]
  · intro cut h
    cases hb : container.encloses rect
    · rw [make_cutout_rect_closed_form container rect t ht hb] at h
      rw [Option.some.injEq] at h
      subst h
      refine ⟨?_, fun hx => ?_, fun hx => ?_, fun hx => ?_, fun hx => ?_⟩
      · simp only [Rectangle.encloses, decide_eq_true_eq]
        refine ⟨?_, ?_, ?_, ?_⟩ <;> dsimp only <;> split_ifs <;> linarith
      · dsimp only
        rw [if_pos hx]
        linarith
      · dsimp only
        rw [if_pos hx]
        linarith
      · dsimp only
        rw [if_pos hx]
        linarith
      · dsimp only
        rw [if_pos hx]
        linarith
    · simp [make_cutout_rect, hb] at h

/-- C1 counterexample: with the default 7.1mm wall thickness a cutout
exceeding the container's low x bound by 0.1mm is extended to lowx = -14.1,
which is not at least `2*thickness_xy = 14.2` past the container boundary at
x = 0 (the integer move array truncated 14.2 to 14). -/
theorem cutout_resolver_counterexample :
    make_cutout_rect ⟨0, 0, 10, 10⟩ ⟨-0.1, 1, 5, 2⟩ 7.1 =
      some ⟨-14.1, 1, 5, 2⟩ ∧
    ¬((-14.1 : ℚ) ≤ 0 - 2 * 7.1) := by
  refine ⟨?_, by norm_num⟩
  rw [make_cutout_rect_closed_form _ _ _ (by norm_num)
    (by norm_num [Rectangle.encloses])]
  norm_num [npIntCast, npTrunc]

/-- C1 witness: a concrete not-enclosed cutout with positive thickness,
where the resolver's no-cut condition is settled by the theorem. -/
theorem cutout_resolver_spec_witness :
    make_cutout_rect ⟨0, 0, 10, 10⟩ ⟨-0.1, 1, 5, 2⟩ 7.1 = none ↔
      Rectangle.encloses ⟨0, 0, 10, 10⟩ ⟨-0.1, 1, 5, 2⟩ = true :=
  (cutout_resolver_spec ⟨0, 0, 10, 10⟩ ⟨-0.1, 1, 5, 2⟩ 7.1 (by norm_num)).1

/-- C3: for every `ScadCase` successfully constructed (so with
`board_slot < thickness_xy`), `cavity_height = space_top + space_bot +
board_thickness` exactly and `height = cavity_height + 2*thickness_z`
exactly; with default spacing 15/15mm, board thickness 1.6mm and
thickness_z 4.0mm this gives `cavity_height = 31.6`mm and
`height = 39.6`mm. -/
theorem case_dimension_invariants (bb : Rectangle) (st sb bt tz ts : ℚ)
    (c : ScadCase) (h : mkScadCase bb st sb bt tz ts = some c) :
    c.cavity_height = st + sb + bt ∧
    c.height = c.cavity_height + 2 * tz ∧
    (st = 15 → sb = 15 → bt = 1.6 → tz = 4 →
      c.cavity_height = 31.6 ∧ c.height = 39.6) := by
  rw [mkScadCase] at h
  split_ifs at h
  rw [Option.some.injEq] at h
  subst h
  refine ⟨rfl, ?_, ?_⟩
  · simp only [ScadCase.height, ScadCase.cavity_height, ScadCase.make]
    ring
  · intro h1 h2 h3 h4
    subst h1; subst h2; subst h3; subst h4
    constructor <;>
      norm_num [ScadCase.height, ScadCase.cavity_height, ScadCase.make]

/-- C3 witness: the construction of the demo case succeeds and its derived
dimensions are 31.6mm and 39.6mm. -/
theorem case_dimension_invariants_witness :
    demoCase.cavity_height = 31.6 ∧ demoCase.height = 39.6 :=
  (case_dimension_invariants demoBoardBox 15.0 15.0 1.6 4.0 7.1 demoCase
    demoCase_construction).2.2 (by norm_num) (by norm_num) (by norm_num)
    (by norm_num)

/-- C5: `cut_side_top` on a rectangle fully enclosed by the cavity footprint
is not a silent no-op: `_make_cutout_rect` returns `None` and the body passes
it straight into `rect2scad`, which raises `AttributeError` (modelled as
`none`).  Here the 10x10 rectangle is enclosed by the demo case's cavity
footprint and the operation aborts instead of leaving the solid unchanged. -/
theorem cut_side_top_enclosed_crashes :
    demoCase.board_bbox.encloses ⟨10, 10, 20, 20⟩ = true ∧
    demoCase.cut_side_top ⟨10, 10, 20, 20⟩ = none := by
  have he : demoCase.board_bbox.encloses ⟨10, 10, 20, 20⟩ = true := by
    norm_num [demoCase, ScadCase.make, demoBoardBox, Rectangle.pad,
      Rectangle.encloses]
  refine ⟨he, ?_⟩
  simp [ScadCase.cut_side_top, ScadCase.makeCutoutRect, make_cutout_rect, he]

/-- C6: the gspec option values are parsed and stored into the module
attributes `scad.space_top` / `scad.space_bot`, which nothing reads; the
constructed case is the same as without a gspec file and keeps the default
15mm clearances (and with no gspec file the defaults are used and
construction succeeds). -/
theorem gspec_values_never_reach_case :
    (pipelineCase demoBoardBox
      (some [⟨"front-standoff-height", 20⟩, ⟨"back-standoff-height", 22⟩])).1 =
      ⟨some 20, some 22⟩ ∧
    (pipelineCase demoBoardBox
      (some [⟨"front-standoff-height", 20⟩, ⟨"back-standoff-height", 22⟩])).2 =
      (pipelineCase demoBoardBox none).2 ∧
    (pipelineCase demoBoardBox none).2 = some demoCase ∧
    demoCase.space_top = 15 ∧ demoCase.space_bot = 15 := by
  refine ⟨?_, rfl, demoCase_construction, by norm_num [demoCase, ScadCase.make],
    by norm_num [demoCase, ScadCase.make]⟩
  simp [pipelineCase, runGspec]

/-- C8 counterexample: in the demo case the board-retention screws' x
coordinate is 28.5, not the 25 of the board bounding box's horizontal
midpoint (whether "board bounding box" means the input box or the stored
slot-shrunk footprint, both midpoints are 25), and their y coordinates are
[1.6, 28.4], not the y-extremes of either box offset outward by the screw
shaft radius. -/
theorem board_screw_midpoint_counterexample :
    demoCase.boardScrewX ≠ (demoBoardBox.left + demoBoardBox.right) / 2 ∧
    demoCase.boardScrewX ≠
      (demoCase.board_bbox.left + demoCase.board_bbox.right) / 2 ∧
    demoCase.boardScrewYs ≠
      [demoBoardBox.bot - screwShaftRadius, demoBoardBox.top + screwShaftRadius] ∧
    demoCase.boardScrewYs ≠
      [demoCase.board_bbox.bot - screwShaftRadius,
       demoCase.board_bbox.top + screwShaftRadius] := by
  refine ⟨?_, ?_, ?_, ?_⟩ <;>
    norm_num [ScadCase.boardScrewX, ScadCase.boardScrewYs, demoCase,
      ScadCase.make, demoBoardBox, Rectangle.pad, Rectangle.left,
      Rectangle.right, Rectangle.bot, Rectangle.top, Rectangle.width,
      screwShaftRadius]

/-- C8 amended: the board-retention screws sit at the x midpoint of the
stored board footprint shifted right by `board_slot` (equivalently, the
code's `left + (width + 2*board_slot)/2`), at the stored footprint's
y-extremes offset outward by the shaft radius plus 0.5mm; each screw term is
clipped by subtracting the `remove_top` region first, so no point of the
subtracted screw solid lies in the top region. -/
theorem board_screw_positions (c : ScadCase) :
    c.boardScrewX = (c.board_bbox.left + c.board_bbox.right) / 2 + c.board_slot ∧
    c.boardScrewYs = [c.board_bbox.bot - (screwShaftRadius + 0.5),
      c.board_bbox.top + (screwShaftRadius + 0.5)] ∧
    c.afterScrews = (Solid.diff (Solid.diff c.afterTopScrews
      (c.boardScrewSolid (c.board_bbox.bot - screwShaftRadius - 0.5)))
      (c.boardScrewSolid (c.board_bbox.top + screwShaftRadius + 0.5))) ∧
    (∀ y p, (c.boardScrewSolid y).contains p = true →
      c.removeTop.contains p = false) := by
  refine ⟨?_, ?_, rfl, ?_⟩
  · simp only [ScadCase.boardScrewX, Rectangle.left, Rectangle.right,
      Rectangle.width]
    ring
  · simp only [ScadCase.boardScrewYs, Rectangle.bot, Rectangle.top,
      List.cons.injEq, and_true]
    constructor <;> ring
  · intro y p h
    obtain ⟨x', y', z'⟩ := p
    simp only [ScadCase.boardScrewSolid, Solid.contains, Bool.and_eq_true,
      Bool.not_eq_true'] at h
    exact h.2

/-- C4: `cut_top` subtracts from the accumulated solid the prism of height
`cavity_height + 2*thickness_z` over the rectangle's footprint (rising from
the board plane z = 0), and `cut_bot` subtracts the same prism mirrored about
the z = 0 plane (the scale by -1 in z applied before subtraction), i.e. it
removes exactly the points whose z-mirror image lies in that prism. -/
theorem cut_top_cut_bot_semantics (c : ScadCase) (rect : Rectangle)
    (x y z : ℚ) :
    ((c.cut_top rect).case.contains (x, y, z) = true ↔
      (c.case.contains (x, y, z) = true ∧
        ¬inPrism rect (c.cavity_height + c.thickness_z * 2) x y z)) ∧
    ((c.cut_bot rect).case.contains (x, y, z) = true ↔
      (c.case.contains (x, y, z) = true ∧
        ¬inPrism rect (c.cavity_height + c.thickness_z * 2) x y (-z))) := by
  constructor
  · simp only [ScadCase.cut_top, Solid.contains, Bool.and_eq_true,
      Bool.not_eq_true', decide_eq_false_iff_not, inPrism, Rectangle.left,
      Rectangle.bot, Rectangle.width, Rectangle.height, sub_zero]
    constructor <;> rintro ⟨h1, h2⟩ <;> refine ⟨h1, fun hc => h2 ?_⟩ <;>
      obtain ⟨p1, p2, p3, p4, p5, p6⟩ := hc <;>
      exact ⟨by linarith, by linarith, by linarith, by linarith, by linarith,
        by linarith⟩
  · simp only [ScadCase.cut_bot, Solid.contains, Bool.and_eq_true,
      Bool.not_eq_true', decide_eq_false_iff_not, inPrism, Rectangle.left,
      Rectangle.bot, Rectangle.width, Rectangle.height, sub_zero, div_neg,
      div_one]
    constructor <;> rintro ⟨h1, h2⟩ <;> refine ⟨h1, fun hc => h2 ?_⟩ <;>
      obtain ⟨p1, p2, p3, p4, p5, p6⟩ := hc <;>
      exact ⟨by linarith, by linarith, by linarith, by linarith, by linarith,
        by linarith⟩

/-- C2: when `save`'s assertions hold it produces exactly the boolean
sequence `main = (case ∩ main_selector) − top_selector`,
`side = case − (main_selector ∪ top_selector)`, `top = case ∩ top_selector`
on the final case solid (the accumulator after the screw subtractions), and
pointwise every point of the final case solid lies in exactly one of the
three parts, so they cover it exactly with no duplicated material. -/
theorem save_part_separation (c : ScadCase)
    (h1 : screwRecessSide < c.thickness_xy)
    (h2 : screwRecessTop < c.thickness_z) :
    c.save = some c.saveParts ∧
    c.saveParts.main =
      Solid.diff (Solid.inter c.saveParts.full c.mainArea) c.topAreaSelect ∧
    c.saveParts.side =
      Solid.diff c.saveParts.full (Solid.union c.mainArea c.topAreaSelect) ∧
    c.saveParts.top = Solid.inter c.saveParts.full c.topAreaSelect ∧
    ∀ p, (c.saveParts.full.contains p = true ↔
      exactlyOne (c.saveParts.main.contains p = true)
        (c.saveParts.top.contains p = true)
        (c.saveParts.side.contains p = true)) := by
  refine ⟨?_, rfl, rfl, rfl, ?_⟩
  · rw [ScadCase.save, if_pos h1, if_pos h2]
  · intro p
    simp only [ScadCase.saveParts, contains_diff, contains_inter,
      contains_union]
    cases hF : c.afterScrews.contains p <;>
      cases hM : c.mainArea.contains p <;>
        cases hT : c.topAreaSelect.contains p <;>
          simp [exactlyOne, hF, hM, hT]

/-- C2 witness: for the concrete demo case the assertions hold and `save`
succeeds, yielding the separated parts. -/
theorem save_part_separation_witness :
    demoCase.save = some demoCase.saveParts :=
  (save_part_separation demoCase
    (by norm_num [demoCase, ScadCase.make, screwRecessSide])
    (by norm_num [demoCase, ScadCase.make, screwRecessTop])).1

/-- C7 counterexample: `save` does mutate the accumulator: for the demo case
the full-case solid written out by `save` (the accumulator after `save`) is
not the accumulator it started from, because `save` subtracts the ten screw
solids from it. -/
theorem save_mutates_accumulator :
    (ScadCase.saveParts demoCase).full ≠ demoCase.case := by
  intro h
  exact absurd (congrArg Solid.size h) (by decide)

/-- C7 amended: `save` first subtracts the ten screw solids from the
accumulator; the part separation then only derives sub-solids (the full-case
artifact is exactly the accumulator after the screw subtractions, every
point of it was material of the accumulator before `save`, and each of the
three parts is contained in it). -/
theorem save_separation_pure_after_screws (c : ScadCase) :
    c.saveParts.full = c.afterScrews ∧
    (∀ p, c.saveParts.full.contains p = true → c.case.contains p = true) ∧
    (∀ p, c.saveParts.main.contains p = true →
      c.saveParts.full.contains p = true) ∧
    (∀ p, c.saveParts.top.contains p = true →
      c.saveParts.full.contains p = true) ∧
    (∀ p, c.saveParts.side.contains p = true →
      c.saveParts.full.contains p = true) := by
  refine ⟨rfl, ?_, ?_, ?_, ?_⟩ <;> intro p h <;>
    simp only [ScadCase.saveParts, ScadCase.afterScrews, ScadCase.afterTopScrews,
      ScadCase.afterSideScrews, contains_diff, contains_inter, contains_union,
      Bool.and_eq_true, Bool.not_eq_true'] at h ⊢ <;> tauto

/-- C9: the open-top command-line flag is parsed but never read, so two runs
identical except for the flag produce identical output artifacts. -/
theorem open_flag_no_effect (board : BoardInput)
    (gspec : Option (List GspecOption)) (o1 o2 : Bool) :
    runCasemaker board gspec o1 = runCasemaker board gspec o2 := rfl

/-- C10: the `sideCut` bounding boxes are computed but never passed to any
cut operation, so boards differing only in their `sideCut` rectangles produce
identical output artifacts. -/
theorem side_cuts_no_effect (bbox : Rectangle) (tf bf s1 s2 : List Rectangle)
    (gspec : Option (List GspecOption)) (o : Bool) :
    runCasemaker ⟨bbox, tf, bf, s1⟩ gspec o =
      runCasemaker ⟨bbox, tf, bf, s2⟩ gspec o := rfl

end CaseMaker
